import Mathlib

/-!
Verification development for the drizzler HTTP fetch engine.

We give a shallow embedding of the parts of the code the specification
talks about: the per-host circuit breaker and token bucket
(`src/drizzler/throttling.py`), the state persistence layer
(`src/drizzler/persistence.py`), the statistics aggregator
(`src/drizzler/metrics.py`), the host classifier
(`src/drizzler/utils.py`), and the fetch pipeline / orchestrator entry
points (`src/drizzler/core.py`).

Modelling conventions:
 - Python floats are embedded as exact rationals (`ℚ`); decimal literals
   such as `0.2` are the corresponding exact rationals.
 - The asyncio event-loop clock and `time.perf_counter` are both modelled
   as explicit time arguments; where a code path samples the clock several
   times, the model threads a tick counter through a clock stream.
 - Fallible code is embedded in `Except String` (a raised exception is
   `.error msg`), absent values as `Option`.
 - Effects on the engine's mutable state are explicit state passing.
-/

/-- Python `int(x)` on a float truncates toward zero. -/
def pyInt (q : ℚ) : Int := if 0 ≤ q then ⌊q⌋ else ⌈q⌉

/-- Python substring test `needle in hay` on strings (contiguous substring). -/
def containsSub (needle : List Char) : List Char → Bool
  | [] => needle.isEmpty
  | c :: rest => needle.isPrefixOf (c :: rest) || containsSub needle rest

/-- String-level wrapper for `containsSub`. -/
def strContains (hay needle : String) : Bool :=
  containsSub needle.data hay.data

/- ────────────────────────────────
   throttling.py : HostCircuitBreaker
   ──────────────────────────────── -/

/-- State of `HostCircuitBreaker` (throttling.py lines 9-47). -/
structure HostCircuitBreaker where
  failures : Nat
  last_failure : ℚ
  cooldown_until : ℚ
  failure_threshold : Nat
  cooldown_s : ℚ
  deriving Repr, DecidableEq

/-- `HostCircuitBreaker.__init__` (throttling.py lines 10-16). -/
def HostCircuitBreaker.init (failure_threshold : Nat) (cooldown_s : ℚ) :
    HostCircuitBreaker :=
  { failures := 0, last_failure := 0, cooldown_until := 0,
    failure_threshold := failure_threshold, cooldown_s := cooldown_s }

/-- `can_attempt` (throttling.py line 18-19): true iff the event-loop time
has reached `cooldown_until`. `t` is the sampled loop time. -/
def HostCircuitBreaker.can_attempt (b : HostCircuitBreaker) (t : ℚ) : Bool :=
  b.cooldown_until ≤ t

/-- `record_failure` (throttling.py lines 21-27). `t` is the sampled loop
time. The code increments `failures` and stores `last_failure`; when the
counter reaches the threshold it then executes
`logger.debug(f"... (now={now:.2f})")` whose f-string references the
undefined name `now` (there is no local or module-level `now` in
throttling.py), so the call raises `NameError` before `cooldown_until`
is assigned and before the counter is reset. -/
def HostCircuitBreaker.record_failure (b : HostCircuitBreaker) (t : ℚ) :
    Except String HostCircuitBreaker :=
  let b1 := { b with failures := b.failures + 1, last_failure := t }
  if b1.failure_threshold ≤ b1.failures then
    .error ("NameError")
  else
    .ok b1

/-- The transition `record_failure` was documented to perform (spec §3,
"Transitions"): increment the counter; at threshold, set
`cooldown_until = now + cooldown_window` and reset the counter. This is
what throttling.py lines 21-27 compute once the stray `now` reference in
the debug call is removed. -/
def HostCircuitBreaker.record_failure_intended (b : HostCircuitBreaker) (t : ℚ) :
    HostCircuitBreaker :=
  let b1 := { b with failures := b.failures + 1, last_failure := t }
  if b1.failure_threshold ≤ b1.failures then
    { b1 with cooldown_until := b1.last_failure + b1.cooldown_s, failures := 0 }
  else
    b1

/-- `record_success` (throttling.py lines 29-32): reset the counter,
leave everything else alone. -/
def HostCircuitBreaker.record_success (b : HostCircuitBreaker) : HostCircuitBreaker :=
  { b with failures := 0 }

/-- Serialized form of a breaker (throttling.py `to_dict`, lines 34-39). -/
structure BreakerData where
  failures : Nat
  cooldown_until : ℚ
  last_failure : ℚ
  deriving Repr, DecidableEq

/-- `HostCircuitBreaker.to_dict` (throttling.py lines 34-39). -/
def HostCircuitBreaker.to_dict (b : HostCircuitBreaker) : BreakerData :=
  { failures := b.failures, cooldown_until := b.cooldown_until,
    last_failure := b.last_failure }

/-- `HostCircuitBreaker.from_dict` (throttling.py lines 41-47): construct
with the configured threshold/cooldown, then overwrite the three stored
fields verbatim. -/
def HostCircuitBreaker.from_dict (data : BreakerData)
    (failure_threshold : Nat) (cooldown_s : ℚ) : HostCircuitBreaker :=
  { HostCircuitBreaker.init failure_threshold cooldown_s with
    failures := data.failures, cooldown_until := data.cooldown_until,
    last_failure := data.last_failure }

/- ────────────────────────────────
   throttling.py : BoundedTokenBucket
   ──────────────────────────────── -/

/-- State of `BoundedTokenBucket` (throttling.py lines 50-71). The asyncio
queue is modelled by its capacity (`maxsize=burst`) and current length;
the background producer task and stop event are outside the per-call
state the claims are about. -/
structure BoundedTokenBucket where
  rate : ℚ
  burst : Int
  q_maxsize : Int
  q_len : Nat
  jitter_frac : ℚ
  ramp_up_s : ℚ
  start_t : Option ℚ
  name : String
  _cooldown_until : ℚ
  deriving Repr, DecidableEq

/-- `BoundedTokenBucket.__init__` (throttling.py lines 51-71). The
`assert rate_per_sec > 0 and burst >= 1` is modelled by returning `none`
(an `AssertionError`) when it fails. On success the queue is created
empty with `maxsize=burst`, `_start_t` is `None` and `_cooldown_until`
is `0.0`. -/
def BoundedTokenBucket.init (rate_per_sec : ℚ) (burst : Int)
    (jitter_frac : ℚ) (ramp_up_s : ℚ) (name : String) :
    Option BoundedTokenBucket :=
  if 0 < rate_per_sec ∧ 1 ≤ burst then
    some { rate := rate_per_sec, burst := burst, q_maxsize := burst,
           q_len := 0, jitter_frac := jitter_frac, ramp_up_s := ramp_up_s,
           start_t := none, name := name, _cooldown_until := 0 }
  else
    none

/-- `cooldown_until` (throttling.py lines 97-101): raise the cooldown
floor to `wake_ts` if it is higher, otherwise leave it unchanged. -/
def BoundedTokenBucket.cooldown_until (b : BoundedTokenBucket) (wake_ts : ℚ) :
    BoundedTokenBucket :=
  if b._cooldown_until < wake_ts then { b with _cooldown_until := wake_ts } else b

/-- `adjust_rate` (throttling.py lines 103-107). -/
def BoundedTokenBucket.adjust_rate (b : BoundedTokenBucket) (multiplier : ℚ) :
    BoundedTokenBucket :=
  { b with rate := max 0.1 (b.rate * multiplier) }

/-- `_current_rate` (throttling.py lines 109-117). `t` is the sampled
event-loop time. If `ramp_up_s <= 0` or `_start_t is None` the target
rate is returned as is (no floor); otherwise the ramped rate, floored at
`0.1`. -/
def BoundedTokenBucket._current_rate (b : BoundedTokenBucket) (t : ℚ) : ℚ :=
  if b.ramp_up_s ≤ 0 then b.rate
  else
    match b.start_t with
    | none => b.rate
    | some s =>
      let elapsed := max 0 (t - s)
      let base := 0.2 * b.rate
      let r := base + (b.rate - base) * min 1 (elapsed / b.ramp_up_s)
      max 0.1 r

/-- Serialized form of a bucket (throttling.py `to_dict`, lines 137-144). -/
structure BucketData where
  rate : ℚ
  cooldown_until : ℚ
  start_t_offset : ℚ
  deriving Repr, DecidableEq

/-- `BoundedTokenBucket.to_dict` (throttling.py lines 137-144). `t` is the
event-loop time at save. `rate` and `_cooldown_until` are stored verbatim;
`start_t_offset` is `t - _start_t` when `_start_t` is truthy (not `None`
and not `0.0`), else `0`. -/
def BoundedTokenBucket.to_dict (b : BoundedTokenBucket) (t : ℚ) : BucketData :=
  { rate := b.rate, cooldown_until := b._cooldown_until,
    start_t_offset :=
      match b.start_t with
      | some s => if s = 0 then 0 else t - s
      | none => 0 }

/-- `BoundedTokenBucket.from_dict` (throttling.py lines 146-153): build a
fresh bucket from the constructor kwargs, overwrite `rate` and
`_cooldown_until` verbatim from the stored data, and rebase `_start_t`
against the new clock (`t`) only when the stored offset is positive.
(After `save_state` the `start_t_offset` key is always present, so only
the `> 0` test matters.) -/
def BoundedTokenBucket.from_dict (data : BucketData) (t : ℚ)
    (rate_per_sec : ℚ) (burst : Int) (jitter_frac : ℚ) (ramp_up_s : ℚ)
    (name : String) : Option BoundedTokenBucket :=
  (BoundedTokenBucket.init rate_per_sec burst jitter_frac ramp_up_s name).map
    fun obj =>
      { obj with
        rate := data.rate,
        _cooldown_until := data.cooldown_until,
        start_t :=
          if 0 < data.start_t_offset then some (t - data.start_t_offset)
          else obj.start_t }

/- ────────────────────────────────
   persistence.py : StateManager
   ──────────────────────────────── -/

/-- Contents of the state file (persistence.py `save_state`, lines 13-23).
`json.dump`/`json.load` of a dict of numeric fields round-trips the
values exactly, so the file is modelled by the data itself. The maps are
modelled as association lists keyed by host name. -/
structure SavedState where
  buckets : List (String × BucketData)
  breakers : List (String × BreakerData)
  deriving Repr, DecidableEq

/-- `StateManager.save_state` (persistence.py lines 13-23). `t` is the
event-loop time at which the buckets serialize their start offset. -/
def save_state (buckets : List (String × BoundedTokenBucket))
    (breakers : List (String × HostCircuitBreaker)) (t : ℚ) : SavedState :=
  { buckets := buckets.map fun p => (p.1, p.2.to_dict t),
    breakers := breakers.map fun p => (p.1, p.2.to_dict) }

/-- The bucket reconstruction loop in `StateManager.load_state`
(persistence.py lines 32-35); `none` models an exception escaping the
dict comprehension (e.g. the constructor assertion failing). -/
def load_buckets (l : List (String × BucketData)) (t : ℚ)
    (rate_per_sec : ℚ) (burst : Int) (jitter_frac : ℚ) (ramp_up_s : ℚ) :
    Option (List (String × BoundedTokenBucket)) :=
  match l with
  | [] => some []
  | (n, d) :: rest =>
    match BoundedTokenBucket.from_dict d t rate_per_sec burst jitter_frac ramp_up_s n with
    | none => none
    | some b =>
      (load_buckets rest t rate_per_sec burst jitter_frac ramp_up_s).map
        fun r => (n, b) :: r

/-- The breaker reconstruction loop in `StateManager.load_state`
(persistence.py lines 36-39). -/
def load_breakers (l : List (String × BreakerData))
    (failure_threshold : Nat) (cooldown_s : ℚ) :
    List (String × HostCircuitBreaker) :=
  l.map fun p => (p.1, HostCircuitBreaker.from_dict p.2 failure_threshold cooldown_s)

/-- `StateManager.load_state` (persistence.py lines 25-44) on an existing,
well-formed state file, with the per-host configs used by
`RequestDrizzler.run` (core.py lines 573-583): every bucket gets the
configured `rate_per_sec`/`burst`/`ramp_up_s` kwargs (jitter left at the
constructor default `0.15`); every breaker gets the configured
threshold/cooldown. Any exception during reconstruction yields the
empty maps (`except` branch, lines 42-44). -/
def load_state (s : SavedState) (t : ℚ)
    (rate_per_sec : ℚ) (burst : Int) (ramp_up_s : ℚ)
    (failure_threshold : Nat) (cooldown_s : ℚ) :
    List (String × BoundedTokenBucket) × List (String × HostCircuitBreaker) :=
  match load_buckets s.buckets t rate_per_sec burst 0.15 ramp_up_s with
  | none => ([], [])
  | some bks => (bks, load_breakers s.breakers failure_threshold cooldown_s)

/- ────────────────────────────────
   metrics.py : compute_stats
   ──────────────────────────────── -/

/-- The `Stats` dataclass (models.py lines 4-18). The source's `std` field
holds `math.sqrt(variance)`; a square root is irrational, so the model
stores the radicand (the clamped variance) in `var_clamped`. No claim
refers to `std`. -/
structure Stats where
  total : Nat
  success : Nat
  errors : Nat
  mean : Option ℚ
  var_clamped : Option ℚ
  p50 : Option ℚ
  p90 : Option ℚ
  p95 : Option ℚ
  p99 : Option ℚ
  min : Option ℚ
  max : Option ℚ
  error_rate : ℚ
  status_counts : List (Nat × Nat)
  deriving Repr, DecidableEq

/-- The percentile index of `compute_stats` (metrics.py lines 70-71):
`max(0, min(n - 1, int(p * (n - 1))))`. -/
def pct_index (p : ℚ) (n : Nat) : Nat :=
  (max 0 (min ((n : Int) - 1) (pyInt (p * (((n : Int) - 1 : Int) : ℚ))))).toNat

/-- `compute_stats` (metrics.py lines 9-97). The metrics callback is a
pure observer and is dropped; `status_counts` is copied through. -/
def compute_stats (latencies : List ℚ) (success_count error_count : Nat)
    (status_counts : List (Nat × Nat)) : Stats :=
  let total := success_count + error_count
  if total = 0 then
    { total := total, success := success_count, errors := error_count,
      mean := none, var_clamped := none, p50 := none, p90 := none,
      p95 := none, p99 := none, min := none, max := none,
      error_rate := 0, status_counts := status_counts }
  else
    let n := latencies.length
    if n = 0 then
      { total := total, success := success_count, errors := error_count,
        mean := none, var_clamped := none, p50 := none, p90 := none,
        p95 := none, p99 := none, min := none, max := none,
        error_rate := (error_count : ℚ) / (total : ℚ),
        status_counts := status_counts }
    else
      let mean := latencies.sum / (n : ℚ)
      let sum_sq := (latencies.map fun x => x * x).sum
      let sl := latencies.mergeSort (fun a b => a ≤ b)
      { total := total, success := success_count, errors := error_count,
        mean := some mean,
        var_clamped := some (max 0 (sum_sq / (n : ℚ) - mean * mean)),
        p50 := some (sl.getD (pct_index 0.5 n) 0),
        p90 := some (sl.getD (pct_index 0.9 n) 0),
        p95 := some (sl.getD (pct_index 0.95 n) 0),
        p99 := some (sl.getD (pct_index 0.99 n) 0),
        min := some (sl.getD 0 0),
        max := some (sl.getD (n - 1) 0),
        error_rate := (error_count : ℚ) / (total : ℚ),
        status_counts := status_counts }

/- ────────────────────────────────
   utils.py : normalize_host (and the stdlib urlsplit it calls)
   ──────────────────────────────── -/

/-- Characters that `urllib.parse.urlsplit` strips from the front of the
URL (`_WHATWG_C0_CONTROL_OR_SPACE`): C0 controls and space. -/
def isC0OrSpace (c : Char) : Bool := c.toNat ≤ 32

/-- Characters `urlsplit` removes everywhere
(`_UNSAFE_URL_BYTES_TO_REMOVE`): tab, CR, LF. -/
def isUnsafeUrlByte (c : Char) : Bool := c = '\t' || c = '\r' || c = '\n'

/-- CPython `scheme_chars`: ASCII letters, digits, `+`, `-`, `.`. -/
def isSchemeChar (c : Char) : Bool :=
  c.isAlpha || c.isDigit || c = '+' || c = '-' || c = '.'

/-- Netloc delimiters in `_splitnetloc`: the netloc extends from after
`//` up to the first of `/`, `?`, `#`. -/
def isNetlocDelim (c : Char) : Bool := c = '/' || c = '?' || c = '#'

/-- Drop a leading `scheme:` as CPython `urlsplit` does: if the first `:`
occurs at index `i > 0`, the first character is an ASCII letter, and all
characters before the `:` are scheme characters, everything up to and
including the `:` is removed; otherwise the input is unchanged. -/
def dropScheme (l : List Char) : List Char :=
  match l.findIdx? (fun c => c = ':') with
  | none => l
  | some i =>
    let headOk : Bool :=
      match l.head? with
      | some c => decide (c.toNat ≤ 127) && c.isAlpha
      | none => false
    if 0 < i ∧ (l.take i).all isSchemeChar ∧ headOk then
      l.drop (i + 1)
    else l

/-- Netloc extraction of `urllib.parse.urlsplit` (CPython `urlsplit`,
called by `urlparse`): lstrip C0 controls/space, remove tab/CR/LF, drop
a well-formed `scheme:`, then take the netloc when the remainder starts
with `//`, failing with `ValueError` when the netloc has a `[` without a
`]` or vice versa ("Invalid IPv6 URL"). When the netloc has both
brackets CPython validates the bracketed part as an IPv6/IPvFuture
literal and raises `ValueError` otherwise; the model folds that whole
case into an error and no theorem below depends on bracketed hosts.
CPython's `_checknetloc` (which rejects a handful of non-ASCII
characters) is likewise outside the modelled domain. -/
def urlsplit_netloc (url : String) : Except String String :=
  let l := (url.data.dropWhile isC0OrSpace).filter fun c => !(isUnsafeUrlByte c)
  let l2 := dropScheme l
  if l2.take 2 = ['/', '/'] then
    let nl := (l2.drop 2).takeWhile fun c => !(isNetlocDelim c)
    if ('[' ∈ nl) ≠ (']' ∈ nl) then .error ("Invalid IPv6 URL")
    else if '[' ∈ nl then .error ("bracketed host")
    else .ok ⟨nl⟩
  else .ok ""

/-- `normalize_host` (utils.py lines 23-37): classify a URL by its netloc.
The code tests the netloc with Python substring containment (`in`), not
suffix matching, and does not catch the `ValueError` that `urlparse` can
raise. -/
def normalize_host (url : String) : Except String String :=
  match urlsplit_netloc url with
  | .error e => .error e
  | .ok netloc =>
    if netloc = "" then .ok ("default")
    else if strContains netloc (".googlevideo.com") then .ok ("youtube-cdn")
    else if strContains netloc (".ytimg.com") then .ok ("youtube-static")
    else if netloc = "www.youtube.com" then .ok ("youtube-frontend")
    else .ok netloc

/-- Written from the spec's words, for comparison with the source's
substring test: a netloc "matches `*.googlevideo.com`" when it ends with
`.googlevideo.com` (the glob star covers the leading label(s)). -/
def matchesStarDotPattern (dotSuffix netloc : String) : Bool :=
  dotSuffix.data.isSuffixOf netloc.data

/- ────────────────────────────────
   core.py : Retry-After header parsing
   ──────────────────────────────── -/

/-- Whitespace accepted by Python `float(str)` around the literal
(ASCII `Py_ISSPACE`): space, tab, LF, CR, vertical tab, form feed. -/
def isPyFloatSpace (c : Char) : Bool :=
  c = ' ' || c = '\t' || c = '\n' || c = '\x0d' || c = '\x0b' || c = '\x0c'

/-- Numeric value of a digit string. -/
def digitsVal (l : List Char) : Nat :=
  l.foldl (fun a c => a * 10 + (c.toNat - 48)) 0

/-- Nonempty all-digit check. -/
def allDigits (l : List Char) : Bool :=
  !l.isEmpty && l.all Char.isDigit

/-- Sign handling of a Python numeric literal: an optional leading
`+`/`-`. Returns the sign and the rest. -/
def splitSign (l : List Char) : Int × List Char :=
  match l with
  | '+' :: rest => (1, rest)
  | '-' :: rest => (-1, rest)
  | _ => (1, l)

/-- Mantissa of a Python float literal: digits with at most one `.`,
with at least one digit overall (`5`, `5.`, `.5`, `5.25`). Returns its
exact rational value. -/
def parseMantissa (l : List Char) : Option ℚ :=
  match l.findIdx? (fun c => c = '.') with
  | none => if allDigits l then some ((digitsVal l : ℚ)) else none
  | some i =>
    let ip := l.take i
    let fp := l.drop (i + 1)
    if '.' ∈ fp then none
    else if (ip.isEmpty && fp.isEmpty) then none
    else if (ip.all Char.isDigit && fp.all Char.isDigit) then
      some ((digitsVal ip : ℚ) + (digitsVal fp : ℚ) / ((10 : ℚ) ^ fp.length))
    else none

/-- Model of CPython `float(str)` on decimal literals: optional
surrounding whitespace, optional sign, decimal mantissa, optional
`e`/`E` exponent with optional sign. The special forms `inf`, `nan`,
digit-group underscores and hex floats are outside the modelled domain;
none of the header values in the theorems below use them, and every
input rejected here that CPython would also reject (such as an HTTP-date)
raises `ValueError` there, which the caller turns into `None`. -/
def pyFloatParse (s : String) : Option ℚ :=
  let l := (s.data.dropWhile isPyFloatSpace).reverse.dropWhile isPyFloatSpace |>.reverse
  let (sgn, l) := splitSign l
  match l.findIdx? (fun c => c = 'e' || c = 'E') with
  | none => (parseMantissa l).map fun m => sgn * m
  | some i =>
    let mant := l.take i
    let ex := l.drop (i + 1)
    let (esgn, edigits) := splitSign ex
    if allDigits edigits then
      (parseMantissa mant).map fun m =>
        sgn * m * ((10 : ℚ) ^ (esgn * (digitsVal edigits : Int)))
    else none

/-- `RequestDrizzler._retry_after_seconds_from_headers` (core.py lines
160-169): look up the `Retry-After` header (modelled as an association
list, first match); an absent or empty value yields `None`; a value
`float()` accepts yields the parsed seconds clamped to `≥ 0`; a value it
rejects (HTTP-date and friends) yields `None`. -/
def retry_after_seconds_from_headers (headers : List (String × String)) : Option ℚ :=
  match headers.lookup ("Retry-After") with
  | none => none
  | some ra =>
    if ra = "" then none
    else
      match pyFloatParse ra with
      | none => none
      | some secs => some (max 0 secs)

/- ────────────────────────────────
   core.py : orchestrator entry (empty URL list path)
   ──────────────────────────────── -/

/-- The deduplication loop of `RequestDrizzler.__init__` (core.py lines
59-65): keep the first occurrence of each URL, tracking the `seen` set. -/
def dedup_urls (seen : List String) : List String → List String
  | [] => []
  | u :: rest => if u ∈ seen then dedup_urls seen rest else u :: dedup_urls (u :: seen) rest

/-- The URL list preprocessing in `RequestDrizzler.__init__` (core.py
lines 57-65): strip each URL, then (when `deduplicate` is set) keep the
first occurrence of each. Python `str.strip()` is modelled by
`String.trim` (both strip surrounding whitespace; the exact whitespace
class does not matter to any theorem below). -/
def init_urls (deduplicate : Bool) (urls : List String) : List String :=
  let stripped := urls.map String.trim
  if deduplicate then dedup_urls [] stripped else stripped

/-- `RequestDrizzler._expand_playlists` (core.py lines 530-567): URLs
containing `list=` or `playlist` are expanded through yt-dlp — an
external network-driven library, modelled by the oracle `extract`
(`none` models the `except` branch, which falls back to the original
URL); every other URL passes through unchanged. -/
def expand_playlists (extract : String → Option (List String)) :
    List String → List String
  | [] => []
  | u :: rest =>
    (if strContains u ("list=") || strContains u ("playlist") then
      match extract u with
      | some vs => vs
      | none => [u]
    else [u]) ++ expand_playlists extract rest

/-- The control-flow skeleton of `RequestDrizzler.run` that decides its
result (core.py lines 569-599 and 683-702): after state restore the URL
list is expanded; if it is then empty, `run` returns `None` (line 599)
without computing statistics; otherwise it eventually returns the
statistics snapshot of the completed run, abstracted here by the oracle
`rest` applied to the expanded URL list. -/
def run_result (extract : String → Option (List String))
    (rest : List String → Stats) (deduplicate : Bool)
    (urls : List String) : Option Stats :=
  let expanded := expand_playlists extract (init_urls deduplicate urls)
  if expanded.isEmpty then none else some (rest expanded)

/- ────────────────────────────────
   core.py : _fetch_with_policy (HTTP branch)
   ──────────────────────────────── -/

/-- Observable resource/network actions of `_fetch_with_policy`, in
program order: entering the global semaphore, entering the host
semaphore, taking a token from the bucket queue, issuing one HTTP GET
(`_fetch_once`), and the two kinds of sleeps in the retry loop. -/
inductive FetchEv where
  | acquire_global
  | acquire_host
  | acquire_token
  | net_attempt (attempt : Nat)
  | sleep_retry_after (secs : ℚ)
  | sleep_backoff (attempt : Nat)
  deriving Repr, DecidableEq

/-- Per-call environment of `_fetch_with_policy`: retry budget, the run
start time `_t0` (set by `run` before workers start, `None` otherwise),
a clock stream (`clock k` is the value of the `k`-th time sample the
call makes, across both `asyncio` loop time and `utils.now`), the
outcome oracle for `_fetch_once` per attempt number (status, latency,
response headers), and the graceful-shutdown flag. -/
structure FetchCtx where
  max_retries : Nat
  t0 : Option ℚ
  clock : Nat → ℚ
  results : Nat → Option Nat × Option ℚ × List (String × String)
  kill_now : Bool

/-- Mutable engine state touched by one `_fetch_with_policy` call: the
host's breaker and bucket, the shared counters, the recorded latencies,
this worker's timeline list, the sequence of statuses recorded into
`status_counts`, the event trace, and the clock tick cursor. -/
structure FetchSt where
  breaker : HostCircuitBreaker
  bucket : BoundedTokenBucket
  success_count : Nat
  error_count : Nat
  latencies : List ℚ
  timeline : List (ℚ × ℚ × String × Option Nat)
  statuses : List Nat
  events : List FetchEv
  tick : Nat

/-- Sample the next clock value and advance the tick cursor. -/
def FetchSt.sampleClock (st : FetchSt) (ctx : FetchCtx) : ℚ × FetchSt :=
  (ctx.clock st.tick, { st with tick := st.tick + 1 })

/-- The failure finalization of `_fetch_with_policy` (core.py lines
515-521): count one error, sample `now()`, and append a timeline segment
carrying the last observed status when `_t0` is set. -/
def fail_exit (ctx : FetchCtx) (host : String) (start_req : ℚ)
    (last_status : Option Nat) (st : FetchSt) : FetchSt :=
  let st1 := { st with error_count := st.error_count + 1 }
  let (end_req, st2) := st1.sampleClock ctx
  match ctx.t0 with
  | some τ =>
    { st2 with timeline :=
        st2.timeline ++ [(start_req - τ, end_req - τ, host, last_status)] }
  | none => st2

/-- The retry loop of `_fetch_with_policy` (core.py lines 460-513),
structurally recursive on the remaining attempts. `attempt` is the
1-based attempt number; the loop body mirrors the source: shutdown
check, `_fetch_once` via the oracle, status-count recording, the success
classification, `Retry-After` handling with `bucket.cooldown_until` and
a sleep, exponential backoff when attempts remain, and the `break` into
`fail_exit` otherwise. `record_failure` inside the loop is the faithful
embedding and so can raise (`Except.error`). -/
def attempt_loop (ctx : FetchCtx) (host : String) (start_req : ℚ) :
    Option Nat → Nat → Nat → FetchSt → Except String FetchSt
  | last_status, 0, _attempt, st => .ok (fail_exit ctx host start_req last_status st)
  | _last_status, remaining + 1, attempt, st =>
    if ctx.kill_now then .ok st
    else
      let (status?, latency?, headers) := ctx.results attempt
      let st1 := { st with events := st.events ++ [FetchEv.net_attempt attempt] }
      let st2 :=
        match status? with
        | some s => { st1 with statuses := st1.statuses ++ [s] }
        | none => st1
      let isSuccess : Bool :=
        match status?, latency? with
        | some s, some _ => decide (200 ≤ s ∧ s < 400)
        | _, _ => false
      if isSuccess then
        match status?, latency? with
        | some s, some lat =>
          let st3 := { st2 with
            success_count := st2.success_count + 1,
            latencies := st2.latencies ++ [lat],
            breaker := st2.breaker.record_success }
          let st4 :=
            if attempt = 1 then { st3 with bucket := st3.bucket.adjust_rate 1.05 }
            else st3
          let end_req := start_req + lat
          match ctx.t0 with
          | some τ =>
            .ok { st4 with timeline :=
                    st4.timeline ++ [(start_req - τ, end_req - τ, host, some s)] }
          | none => .ok st4
        | _, _ => .ok st2
      else
        let retry_after? := retry_after_seconds_from_headers headers
        if status? = some 429 ∨ status? = some 503 ∨ status? = none then
          let (t_fail, st3) := st2.sampleClock ctx
          match st3.breaker.record_failure t_fail with
          | .error e => .error e
          | .ok bk =>
            let st4 := { st3 with
              breaker := bk,
              bucket := st3.bucket.adjust_rate 0.8 }
            match retry_after? with
            | some ras =>
              if 0 < ras then
                let (t_now, st5) := st4.sampleClock ctx
                let st6 := { st5 with
                  bucket := st5.bucket.cooldown_until (t_now + ras),
                  events := st5.events ++ [FetchEv.sleep_retry_after ras] }
                attempt_loop ctx host start_req status? remaining (attempt + 1) st6
              else if attempt < ctx.max_retries then
                let st5 := { st4 with events := st4.events ++ [FetchEv.sleep_backoff attempt] }
                attempt_loop ctx host start_req status? remaining (attempt + 1) st5
              else .ok (fail_exit ctx host start_req status? st4)
            | none =>
              if attempt < ctx.max_retries then
                let st5 := { st4 with events := st4.events ++ [FetchEv.sleep_backoff attempt] }
                attempt_loop ctx host start_req status? remaining (attempt + 1) st5
              else .ok (fail_exit ctx host start_req status? st4)
        else .ok (fail_exit ctx host start_req status? st2)

/-- The HTTP branch of `RequestDrizzler._fetch_with_policy` (core.py
lines 434-524) for one URL whose classified host is `host` (download
flags all false). The breaker gate (lines 440-450) comes first: when
`can_attempt` is false the call counts one error, appends one
status-less timeline segment (when `_t0` is set) and returns — before
the `async with` over the global and host semaphores, before
`bucket.acquire()`, and before any `_fetch_once`. Otherwise the
semaphores and a token are acquired and the retry loop runs. -/
def fetch_with_policy (ctx : FetchCtx) (host : String) (st : FetchSt) :
    Except String FetchSt :=
  let (t_gate, st1) := st.sampleClock ctx
  if !(st1.breaker.can_attempt t_gate) then
    let st2 := { st1 with error_count := st1.error_count + 1 }
    let (end_req, st3) := st2.sampleClock ctx
    match ctx.t0 with
    | some τ =>
      let (start_s, st4) := st3.sampleClock ctx
      .ok { st4 with timeline :=
              st4.timeline ++ [(start_s - τ, end_req - τ, host, none)] }
    | none => .ok st3
  else
    let st2 := { st1 with events :=
                   st1.events ++ [FetchEv.acquire_global, FetchEv.acquire_host] }
    let (_t_acq, st3) := st2.sampleClock ctx
    let st4 := { st3 with events := st3.events ++ [FetchEv.acquire_token] }
    let (start_req, st5) := st4.sampleClock ctx
    attempt_loop ctx host start_req none ctx.max_retries 1 st5

/- ────────────────────────────────
   Concrete instances used by the closed theorems below
   ──────────────────────────────── -/

/-- Playlist oracle that always fails (every yt-dlp expansion raises). -/
def no_extract : String → Option (List String) := fun _ => none

/-- Trivial abstraction of the non-empty tail of `run`. -/
def const_stats : List String → Stats := fun _ => compute_stats [] 0 0 []

/-- A breaker mid-way to its threshold (as produced by four failing
responses would be, were `record_failure` able to get there). -/
def breaker_at_4 : HostCircuitBreaker :=
  { failures := 4, last_failure := 0, cooldown_until := 0,
    failure_threshold := 5, cooldown_s := 60 }

/-- A breaker carrying a cooldown and a last-failure time, to be saved. -/
def breaker_saved : HostCircuitBreaker :=
  { failures := 2, last_failure := 90, cooldown_until := 100,
    failure_threshold := 5, cooldown_s := 60 }

/-- The bucket `BoundedTokenBucket(0.05, burst=2, ramp_up_s=0)` builds:
target rate `1/20`, no ramp-up. -/
def bucket_low_noramp : BoundedTokenBucket :=
  { rate := 1/20, burst := 2, q_maxsize := 2, q_len := 0, jitter_frac := 3/20,
    ramp_up_s := 0, start_t := none, name := "h", _cooldown_until := 0 }

/-- The same low-target bucket after `start()` at time `0` with a 10 s
ramp-up window (the state `from_dict` also produces for a positive
stored offset). -/
def bucket_low_started : BoundedTokenBucket :=
  { rate := 1/20, burst := 2, q_maxsize := 2, q_len := 0, jitter_frac := 3/20,
    ramp_up_s := 10, start_t := some 0, name := "h", _cooldown_until := 0 }

/-- An ordinary started bucket for the fetch-pipeline instances. -/
def bucket_plain : BoundedTokenBucket :=
  { rate := 1, burst := 2, q_maxsize := 2, q_len := 0, jitter_frac := 3/20,
    ramp_up_s := 15, start_t := some 0, name := "h", _cooldown_until := 0 }

/-- Fetch context for the breaker-gate instance: run started at `τ = 0`,
clock ticking `0, 1, 2, …`, every network attempt a transport failure. -/
def ctx_gate : FetchCtx :=
  { max_retries := 5, t0 := some 0, clock := fun k => (k : ℚ),
    results := fun _ => (none, none, []), kill_now := false }

/-- Engine state whose breaker is open until time `100`. -/
def st_gate : FetchSt :=
  { breaker := { failures := 0, last_failure := 40, cooldown_until := 100,
                 failure_threshold := 5, cooldown_s := 60 },
    bucket := bucket_plain, success_count := 0, error_count := 0,
    latencies := [], timeline := [], statuses := [], events := [], tick := 0 }

/-- The bucket `BoundedTokenBucket(1.0, burst=2, ramp_up_s=15)` builds,
before `start()`. -/
def bucket_fresh : BoundedTokenBucket :=
  { rate := 1, burst := 2, q_maxsize := 2, q_len := 0, jitter_frac := 3/20,
    ramp_up_s := 15, start_t := none, name := "h", _cooldown_until := 0 }

/-- Written from the claim's words, for comparison with the source's
`pct_index`: the nearest-rank index `clamp(⌊p·(n−1)⌋, 0, n−1)`. -/
def spec_pct_index (p : ℚ) (n : Nat) : Nat :=
  (max 0 (min ((n : Int) - 1) ⌊p * (((n : Int) - 1 : Int) : ℚ)⌋)).toNat

/- ────────────────────────────────
   Theorems
   ──────────────────────────────── -/

/-- Claim C1: `record_failure` was claimed to increment the failure
counter and, at threshold, set `cooldown_until = failure_time +
cooldown_window` and reset the counter, with `record_success` resetting
the counter and leaving `cooldown_until` alone. Below threshold, and for
`record_success`, the code does behave that way; but at the threshold
the debug f-string at throttling.py line 25 references the undefined
name `now`, so `record_failure` raises `NameError` and never updates
`cooldown_until` nor resets the counter: the claim describes the
intended transition (`record_failure_intended`), not what the code
does. -/
theorem claim_record_failure_threshold_raises :
    HostCircuitBreaker.record_failure breaker_at_4 10 = .error ("NameError")
  ∧ HostCircuitBreaker.record_failure_intended breaker_at_4 10 =
      { failures := 0, last_failure := 10, cooldown_until := 70,
        failure_threshold := 5, cooldown_s := 60 }
  ∧ HostCircuitBreaker.record_failure { breaker_at_4 with failures := 2 } 10 =
      .ok { failures := 3, last_failure := 10, cooldown_until := 0,
            failure_threshold := 5, cooldown_s := 60 }
  ∧ HostCircuitBreaker.record_success { breaker_at_4 with cooldown_until := 70 } =
      { failures := 0, last_failure := 0, cooldown_until := 70,
        failure_threshold := 5, cooldown_s := 60 } := by
  refine ⟨rfl, by norm_num [HostCircuitBreaker.record_failure_intended, breaker_at_4], rfl, rfl⟩

/-- Claim C2, counterexample: on an empty URL list `run` does not return
a statistics snapshot at all — it returns `None` (core.py line 599)
before `compute_stats` is ever reached, so its result is not a snapshot
with `total = 0`. -/
theorem claim_run_empty_cex :
    run_result no_extract const_stats true [] = none := rfl

/-- Claim C2, amended: when the input URL list is empty, `run` returns
immediately with `None`, whatever the playlist expansion and the rest of
the run would have done; no statistics snapshot (and in particular none
with `total = 0`) is produced. -/
theorem claim_run_empty_amended
    (extract : String → Option (List String)) (rest : List String → Stats)
    (deduplicate : Bool) :
    run_result extract rest deduplicate [] = none := by
  cases deduplicate <;> rfl

/-- Per-call monotonicity of the bucket cooldown floor. -/
theorem cooldown_until_le_step (b : BoundedTokenBucket) (w : ℚ) :
    b._cooldown_until ≤ (b.cooldown_until w)._cooldown_until := by
  unfold BoundedTokenBucket.cooldown_until
  split
  · exact le_of_lt (by assumption)
  · exact le_refl _

/-- Monotonicity of the cooldown floor over a whole call sequence. -/
theorem cooldown_until_le_foldl (calls : List ℚ) (b : BoundedTokenBucket) :
    b._cooldown_until ≤
      (calls.foldl BoundedTokenBucket.cooldown_until b)._cooldown_until := by
  induction calls generalizing b with
  | nil => exact le_refl _
  | cons w rest ih =>
    exact le_trans (cooldown_until_le_step b w) (ih (b.cooldown_until w))

/-- Claim C9: `BoundedTokenBucket.cooldown_until` only ever raises the
cooldown floor: a call with a wake time above the current floor sets the
floor to it, a call at or below the current floor changes nothing, and
over any sequence of calls the floor is non-decreasing. -/
theorem claim_cooldown_monotone (b : BoundedTokenBucket) (wake : ℚ)
    (calls : List ℚ) :
    (b._cooldown_until < wake →
      (b.cooldown_until wake)._cooldown_until = wake)
  ∧ (wake ≤ b._cooldown_until → b.cooldown_until wake = b)
  ∧ b._cooldown_until ≤ (b.cooldown_until wake)._cooldown_until
  ∧ b._cooldown_until ≤
      (calls.foldl BoundedTokenBucket.cooldown_until b)._cooldown_until := by
  refine ⟨?_, ?_, cooldown_until_le_step b wake, cooldown_until_le_foldl calls b⟩
  · intro h
    unfold BoundedTokenBucket.cooldown_until
    rw [if_pos h]
  · intro h
    unfold BoundedTokenBucket.cooldown_until
    rw [if_neg (not_lt.2 h)]

/-- Witness for claim C9 at a concrete bucket: raising the floor from
`0` to `5`, and a lower call leaving the bucket unchanged. -/
theorem claim_cooldown_monotone_witness :
    ((bucket_plain.cooldown_until 5)._cooldown_until = 5)
  ∧ (bucket_plain.cooldown_until (-1) = bucket_plain) :=
  ⟨(claim_cooldown_monotone bucket_plain 5 []).1 (by decide),
   (claim_cooldown_monotone bucket_plain (-1) []).2.1 (by decide)⟩

/-- Claim C10: constructing a `BoundedTokenBucket` with
`rate_per_sec ≤ 0` or `burst < 1` fails the constructor assertion; a
successfully constructed bucket has a positive target rate, burst at
least one, a permit queue created empty with capacity equal to `burst`
(so the buffer is bounded by `burst`), cooldown floor `0`, and no start
timestamp yet. -/
theorem claim_bucket_init (rate_per_sec : ℚ) (burst : Int)
    (jitter_frac ramp_up_s : ℚ) (name : String) :
    ((rate_per_sec ≤ 0 ∨ burst < 1) →
      BoundedTokenBucket.init rate_per_sec burst jitter_frac ramp_up_s name = none)
  ∧ (∀ b, BoundedTokenBucket.init rate_per_sec burst jitter_frac ramp_up_s name
        = some b →
      0 < b.rate ∧ 1 ≤ b.burst ∧ b.q_maxsize = b.burst ∧ b.q_len = 0 ∧
      (b.q_len : Int) ≤ b.burst ∧ b._cooldown_until = 0 ∧ b.start_t = none) := by
  constructor
  · intro h
    unfold BoundedTokenBucket.init
    rw [if_neg]
    rintro ⟨h1, h2⟩
    rcases h with h | h
    · exact absurd h1 (not_lt.2 h)
    · omega
  · intro b hb
    unfold BoundedTokenBucket.init at hb
    split at hb
    · rename_i hcond
      cases hb
      exact ⟨hcond.1, hcond.2, rfl, rfl, le_trans (by norm_num) hcond.2, rfl, rfl⟩
    · exact absurd hb (by simp)

/-- Witness for claim C10: a zero rate is rejected, and the bucket built
from `rate 1, burst 2` satisfies all the start-state facts. -/
theorem claim_bucket_init_witness :
    (BoundedTokenBucket.init 0 2 (3/20) 15 ("h") = none)
  ∧ (0 < bucket_fresh.rate ∧ 1 ≤ bucket_fresh.burst ∧
     bucket_fresh.q_maxsize = bucket_fresh.burst ∧ bucket_fresh.q_len = 0 ∧
     (bucket_fresh.q_len : Int) ≤ bucket_fresh.burst ∧
     bucket_fresh._cooldown_until = 0 ∧ bucket_fresh.start_t = none) :=
  ⟨(claim_bucket_init 0 2 (3/20) 15 ("h")).1 (Or.inl (by decide)),
   (claim_bucket_init 1 2 (3/20) 15 ("h")).2 bucket_fresh rfl⟩

/-- Claim C5, counterexample: the `0.1` floor is not applied "in every
case". A bucket constructed with `rate_per_sec = 0.05` and
`ramp_up_s = 0` (accepted by the constructor) reports an effective rate
of `0.05 < 0.1`; a started bucket with the same low target reports
`max(0.1, ·)` of the claimed values, so after ramp-up it reports `0.1`,
not the target, and during ramp-up it reports `0.1`, not the
interpolation formula. -/
theorem claim_current_rate_cex :
    BoundedTokenBucket.init (1/20) 2 (3/20) 0 ("h") = some bucket_low_noramp
  ∧ bucket_low_noramp._current_rate 5 = 1/20
  ∧ ¬((1/10 : ℚ) ≤ 1/20)
  ∧ bucket_low_started.rate = 1/20
  ∧ bucket_low_started._current_rate 20 = 1/10
  ∧ ((1/10 : ℚ) ≠ 1/20)
  ∧ bucket_low_started._current_rate 0 = 1/10
  ∧ (0.2 : ℚ) * (1/20) + 0.8 * (1/20) * ((0 : ℚ)/10) = 1/100
  ∧ ((1/10 : ℚ) ≠ 1/100) := by
  refine ⟨by norm_num [BoundedTokenBucket.init, bucket_low_noramp], ?_, by norm_num,
    rfl, ?_, by norm_num, ?_, by norm_num, by norm_num⟩
  · norm_num [BoundedTokenBucket._current_rate, bucket_low_noramp]
  · norm_num [BoundedTokenBucket._current_rate, bucket_low_started, max_def, min_def]
  · norm_num [BoundedTokenBucket._current_rate, bucket_low_started, max_def, min_def]

/-- Claim C5, amended: the effective rate equals
`max(0.1, 0.2·target + 0.8·target·(elapsed/ramp_up_s))` while the bucket
is started, `ramp_up_s > 0` and `elapsed < ramp_up_s`; it equals
`max(0.1, target)` when the bucket is started, `ramp_up_s > 0` and the
ramp has elapsed; and it equals the target rate exactly — with no `0.1`
floor — when `ramp_up_s ≤ 0` or the bucket has not been started. The
`≥ 0.1` guarantee therefore holds exactly on the started, positive-ramp
paths. (`elapsed` is `max 0 (t - start)` as in the code.) -/
theorem claim_current_rate_amended (b : BoundedTokenBucket) (t s : ℚ) :
    (b.ramp_up_s ≤ 0 → b._current_rate t = b.rate)
  ∧ (b.start_t = none → b._current_rate t = b.rate)
  ∧ (0 < b.ramp_up_s → b.start_t = some s → max 0 (t - s) < b.ramp_up_s →
      b._current_rate t =
        max 0.1 (0.2 * b.rate + 0.8 * b.rate * (max 0 (t - s) / b.ramp_up_s)))
  ∧ (0 < b.ramp_up_s → b.start_t = some s → b.ramp_up_s ≤ max 0 (t - s) →
      b._current_rate t = max 0.1 b.rate)
  ∧ (0 < b.ramp_up_s → b.start_t = some s → (1/10 : ℚ) ≤ b._current_rate t) := by
  refine ⟨?_, ?_, ?_, ?_, ?_⟩
  · intro h
    unfold BoundedTokenBucket._current_rate
    rw [if_pos h]
  · intro h
    unfold BoundedTokenBucket._current_rate
    split
    · rfl
    · rw [h]
  · intro hr hs he
    unfold BoundedTokenBucket._current_rate
    rw [if_neg (not_le.2 hr), hs]
    have hmin : min 1 (max 0 (t - s) / b.ramp_up_s) = max 0 (t - s) / b.ramp_up_s :=
      min_eq_right (le_of_lt ((div_lt_one hr).2 he))
    simp only [hmin]
    ring_nf
  · intro hr hs he
    unfold BoundedTokenBucket._current_rate
    rw [if_neg (not_le.2 hr), hs]
    have hmin : min 1 (max 0 (t - s) / b.ramp_up_s) = 1 :=
      min_eq_left ((one_le_div hr).2 he)
    simp only [hmin]
    ring_nf
  · intro hr hs
    unfold BoundedTokenBucket._current_rate
    rw [if_neg (not_le.2 hr), hs]
    simp only
    calc (1/10 : ℚ) = 0.1 := by norm_num
    _ ≤ _ := le_max_left _ _

/-- Witness for claim C5's amended statement, at the low-target started
bucket: the floor bites mid-ramp (elapsed 5 of 10) and the three branch
shapes evaluate as stated. -/
theorem claim_current_rate_amended_witness :
    bucket_low_noramp._current_rate 5 = bucket_low_noramp.rate
  ∧ bucket_low_started._current_rate 5 =
      max 0.1 (0.2 * bucket_low_started.rate +
        0.8 * bucket_low_started.rate * (max 0 ((5 : ℚ) - 0) / bucket_low_started.ramp_up_s))
  ∧ bucket_low_started._current_rate 20 = max 0.1 bucket_low_started.rate
  ∧ (1/10 : ℚ) ≤ bucket_low_started._current_rate 7 :=
  ⟨(claim_current_rate_amended bucket_low_noramp 5 0).1 (by norm_num [bucket_low_noramp]),
   (claim_current_rate_amended bucket_low_started 5 0).2.2.1
     (by norm_num [bucket_low_started]) rfl (by norm_num [bucket_low_started]),
   (claim_current_rate_amended bucket_low_started 20 0).2.2.2.1
     (by norm_num [bucket_low_started]) rfl (by norm_num [bucket_low_started]),
   (claim_current_rate_amended bucket_low_started 7 0).2.2.2.2
     (by norm_num [bucket_low_started]) rfl⟩

/-- Claim C8: the `Retry-After` parser returns the header's numeric value
clamped to `≥ 0` whenever the header is present and `float()` accepts
it, and returns no value when the header is absent or non-numeric (an
HTTP-date, or the empty string, which the `if not ra` guard also sends
to `None`). -/
theorem claim_retry_after (headers : List (String × String)) :
    (headers.lookup ("Retry-After") = none →
      retry_after_seconds_from_headers headers = none)
  ∧ (∀ ra v, headers.lookup ("Retry-After") = some ra → pyFloatParse ra = some v →
      retry_after_seconds_from_headers headers = some (max 0 v))
  ∧ (∀ ra, headers.lookup ("Retry-After") = some ra → pyFloatParse ra = none →
      retry_after_seconds_from_headers headers = none) := by
  refine ⟨?_, ?_, ?_⟩
  · intro h
    simp [retry_after_seconds_from_headers, h]
  · intro ra v hra hv
    by_cases hblank : ra = ""
    · subst hblank
      have he : pyFloatParse "" = none := rfl
      rw [he] at hv
      cases hv
    · simp [retry_after_seconds_from_headers, hra, hblank, hv]
  · intro ra hra hv
    by_cases hblank : ra = ""
    · simp [retry_after_seconds_from_headers, hra, hblank]
    · simp [retry_after_seconds_from_headers, hra, hblank, hv]

/-- Witness for claim C8: a numeric header is clamped and returned, an
HTTP-date is ignored, a negative value clamps to `0`, an absent header
yields nothing. -/
theorem claim_retry_after_witness :
    retry_after_seconds_from_headers [(("Retry-After" : String), "2.5")] =
      some (max 0 (5/2 : ℚ))
  ∧ retry_after_seconds_from_headers
      [(("Retry-After" : String), "Wed, 21 Oct 2015 07:28:00 GMT")] = none
  ∧ retry_after_seconds_from_headers [(("Retry-After" : String), "-3")] =
      some (max 0 (-3 : ℚ))
  ∧ retry_after_seconds_from_headers [(("Content-Type" : String), "text/html")] = none :=
  ⟨(claim_retry_after _).2.1 ("2.5") (5/2) rfl (by
      have hdata : ("2.5").data = ['2', '.', '5'] := rfl
      simp [pyFloatParse, hdata, splitSign, parseMantissa, allDigits, digitsVal,
        isPyFloatSpace]
      try norm_num),
   (claim_retry_after _).2.2 ("Wed, 21 Oct 2015 07:28:00 GMT") rfl rfl,
   (claim_retry_after _).2.1 ("-3") (-3) rfl (by
      have hdata : ("-3").data = ['-', '3'] := rfl
      simp [pyFloatParse, hdata, splitSign, parseMantissa, allDigits, digitsVal,
        isPyFloatSpace]
      try norm_num),
   (claim_retry_after _).1 rfl⟩

/-- Claim C3, counterexample: the classifier uses Python substring
containment, not `*.googlevideo.com` suffix matching — a netloc such as
`a.googlevideo.com.evil.com` does not match the glob yet is collapsed to
`youtube-cdn` — and it is not total: `urlparse` raises `ValueError` on a
netloc with mismatched IPv6 brackets, which `normalize_host` does not
catch. -/
theorem claim_normalize_host_cex :
    urlsplit_netloc ("http://a.googlevideo.com.evil.com/x") =
      .ok ("a.googlevideo.com.evil.com")
  ∧ normalize_host ("http://a.googlevideo.com.evil.com/x") = .ok ("youtube-cdn")
  ∧ matchesStarDotPattern (".googlevideo.com") ("a.googlevideo.com.evil.com") = false
  ∧ normalize_host ("http://[oops") = .error ("Invalid IPv6 URL") :=
  ⟨rfl, rfl, rfl, rfl⟩

/-- Claim C3, amended: given a parsed netloc, `normalize_host` returns
`"default"` when the netloc is empty; otherwise `"youtube-cdn"` when the
netloc contains `.googlevideo.com` as a substring; otherwise
`"youtube-static"` when it contains `.ytimg.com`; otherwise
`"youtube-frontend"` when it is exactly `www.youtube.com`; otherwise the
raw netloc. When the URL makes `urlparse` raise (mismatched square
brackets in the netloc), `normalize_host` propagates the `ValueError`
rather than returning `"default"`. -/
theorem claim_normalize_host_amended (url : String) :
    (∀ netloc, urlsplit_netloc url = Except.ok netloc →
      ((netloc = "" → normalize_host url = .ok ("default"))
      ∧ (netloc ≠ "" → strContains netloc (".googlevideo.com") = true →
          normalize_host url = .ok ("youtube-cdn"))
      ∧ (netloc ≠ "" → strContains netloc (".googlevideo.com") = false →
         strContains netloc (".ytimg.com") = true →
          normalize_host url = .ok ("youtube-static"))
      ∧ (strContains netloc (".googlevideo.com") = false →
         strContains netloc (".ytimg.com") = false → netloc = "www.youtube.com" →
          normalize_host url = .ok ("youtube-frontend"))
      ∧ (netloc ≠ "" → strContains netloc (".googlevideo.com") = false →
         strContains netloc (".ytimg.com") = false → netloc ≠ "www.youtube.com" →
          normalize_host url = .ok netloc)))
  ∧ (∀ e, urlsplit_netloc url = Except.error e → normalize_host url = .error e) := by
  constructor
  · intro netloc h
    refine ⟨?_, ?_, ?_, ?_, ?_⟩ <;> intros <;> (simp [normalize_host, h, *]; try rfl)
  · intro e h
    simp [normalize_host, h]

/-- Witness for claim C3's amended statement across the branches:
a static-CDN URL, a schemeless name with no netloc, and a
bracket-broken URL. -/
theorem claim_normalize_host_amended_witness :
    normalize_host ("https://i.ytimg.com/vi/x.jpg") = .ok ("youtube-static")
  ∧ normalize_host ("just-a-name") = .ok ("default")
  ∧ normalize_host ("https://www.youtube.com/watch?v=abc") = .ok ("youtube-frontend")
  ∧ normalize_host ("http://[broken") = .error ("Invalid IPv6 URL") :=
  ⟨((claim_normalize_host_amended ("https://i.ytimg.com/vi/x.jpg")).1
      ("i.ytimg.com") rfl).2.2.1 (by decide) rfl rfl,
   ((claim_normalize_host_amended ("just-a-name")).1 ("") rfl).1 rfl,
   ((claim_normalize_host_amended ("https://www.youtube.com/watch?v=abc")).1
      ("www.youtube.com") rfl).2.2.2.1 rfl rfl rfl,
   (claim_normalize_host_amended ("http://[broken")).2 ("Invalid IPv6 URL") rfl⟩

/-- Reloading saved breaker data restores `failures`, `cooldown_until`
and `last_failure` verbatim and takes threshold/cooldown from the
configuration. -/
theorem load_breakers_to_dict (brs : List (String × HostCircuitBreaker))
    (th : Nat) (cd : ℚ) :
    load_breakers (brs.map fun p => (p.1, p.2.to_dict)) th cd =
      brs.map fun p => (p.1,
        { failures := p.2.failures, cooldown_until := p.2.cooldown_until,
          last_failure := p.2.last_failure, failure_threshold := th,
          cooldown_s := cd }) := by
  unfold load_breakers
  rw [List.map_map]
  rfl

/-- Reloading saved bucket data restores `rate` and `_cooldown_until`
verbatim, takes the constructor arguments from the configuration, and
rebases the start time against the new clock exactly when the stored
offset is positive. -/
theorem load_buckets_to_dict (l : List (String × BoundedTokenBucket)) (ts tl : ℚ)
    (rate : ℚ) (burst : Int) (jf ramp : ℚ) (h : 0 < rate ∧ 1 ≤ burst) :
    load_buckets (l.map fun p => (p.1, p.2.to_dict ts)) tl rate burst jf ramp =
      some (l.map fun p => (p.1,
        { rate := p.2.rate, burst := burst, q_maxsize := burst, q_len := 0,
          jitter_frac := jf, ramp_up_s := ramp,
          start_t := if 0 < (p.2.to_dict ts).start_t_offset
                     then some (tl - (p.2.to_dict ts).start_t_offset) else none,
          name := p.1, _cooldown_until := p.2._cooldown_until })) := by
  induction l with
  | nil => rfl
  | cons p rest ih =>
    simp only [List.map_cons]
    unfold load_buckets
    rw [ih]
    simp [BoundedTokenBucket.from_dict, BoundedTokenBucket.init,
      BoundedTokenBucket.to_dict, if_pos h]

/-- Claim C4, counterexample: breaker timestamps are not stored as
offsets relative to process time and are not rebased on restore — they
are stored and restored as absolute event-loop values. Saving a breaker
whose `cooldown_until` is `100` at time `50` and loading at time `0`
yields `cooldown_until = 100` again, not the rebased
`0 + (100 - 50) = 50`. (The bucket's `rate`/`cooldown_until` are
likewise verbatim; only the bucket's start time is offset-encoded.) -/
theorem claim_persist_cex :
    load_state (save_state [] [(("h" : String), breaker_saved)] 50) 0 1 2 15 5 60 =
      ([], [(("h" : String), breaker_saved)])
  ∧ breaker_saved.cooldown_until = 100
  ∧ ((100 : ℚ) ≠ 0 + (100 - 50)) := by
  refine ⟨rfl, rfl, by norm_num⟩

/-- Claim C4, amended: saving the bucket and breaker maps and loading
them back gives, for every host, a breaker with the same `failures`,
`cooldown_until` and `last_failure` — restored verbatim, not rebased —
with threshold and cooldown window taken from the configuration, and a
bucket with the same `rate` and `cooldown_until` (also verbatim), whose
constructor arguments come from the configuration. Only the bucket's
start time is stored as an offset against process time (`t_save - s`,
when the start time is set, nonzero and in the past) and rebased against
the new clock on restore (`t_load - offset`, when the stored offset is
positive). -/
theorem claim_persist_roundtrip (bks : List (String × BoundedTokenBucket))
    (brs : List (String × HostCircuitBreaker)) (ts tl : ℚ)
    (rate : ℚ) (burst : Int) (ramp : ℚ) (th : Nat) (cd : ℚ)
    (hrate : 0 < rate) (hburst : 1 ≤ burst) :
    load_state (save_state bks brs ts) tl rate burst ramp th cd =
      (bks.map fun p => (p.1,
        { rate := p.2.rate, burst := burst, q_maxsize := burst, q_len := 0,
          jitter_frac := 0.15, ramp_up_s := ramp,
          start_t := if 0 < (p.2.to_dict ts).start_t_offset
                     then some (tl - (p.2.to_dict ts).start_t_offset) else none,
          name := p.1, _cooldown_until := p.2._cooldown_until }),
       brs.map fun p => (p.1,
        { failures := p.2.failures, cooldown_until := p.2.cooldown_until,
          last_failure := p.2.last_failure, failure_threshold := th,
          cooldown_s := cd }))
  ∧ (∀ b : BoundedTokenBucket, ∀ s : ℚ, b.start_t = some s → s ≠ 0 →
      (b.to_dict ts).start_t_offset = ts - s) := by
  constructor
  · unfold load_state save_state
    rw [load_buckets_to_dict bks ts tl rate burst 0.15 ramp ⟨hrate, hburst⟩,
      load_breakers_to_dict]
  · intro b s h1 h2
    simp [BoundedTokenBucket.to_dict, h1, h2]

/-- Witness for claim C4 on a one-host state: a started bucket saved at
time `50` and reloaded at time `7` keeps its rate and cooldown and gets
`start_t = 7 - 50` rebased; the breaker keeps its three fields. -/
theorem claim_persist_roundtrip_witness :
    load_state
      (save_state [(("h" : String), bucket_low_started)]
        [(("h" : String), breaker_saved)] 50) 7 1 2 15 5 60 =
      ([(("h" : String),
         { rate := bucket_low_started.rate, burst := 2, q_maxsize := 2, q_len := 0,
           jitter_frac := 0.15, ramp_up_s := 15,
           start_t := if 0 < (bucket_low_started.to_dict 50).start_t_offset
                      then some (7 - (bucket_low_started.to_dict 50).start_t_offset)
                      else none,
           name := "h", _cooldown_until := bucket_low_started._cooldown_until })],
       [(("h" : String),
         { failures := breaker_saved.failures,
           cooldown_until := breaker_saved.cooldown_until,
           last_failure := breaker_saved.last_failure,
           failure_threshold := 5, cooldown_s := 60 })]) :=
  (claim_persist_roundtrip [(("h" : String), bucket_low_started)]
    [(("h" : String), breaker_saved)] 50 7 1 2 15 5 60
    (by norm_num) (by norm_num)).1

/-- Claim C7: when the host's breaker reports that no attempt may be
made (the clock sample at the gate is before `cooldown_until`) and the
run start time `_t0` is set, `_fetch_with_policy` returns having
incremented the error count by exactly one and appended exactly one
status-less timeline segment for that host — and nothing else: the event
trace is unchanged (no global-semaphore entry, no host-semaphore entry,
no bucket token taken, no network attempt), and the success count,
latencies, status counts, breaker and bucket are all untouched. The two
segment offsets come from the second and first `now()` samples after the
gate. -/
theorem claim_breaker_gate (ctx : FetchCtx) (host : String) (st : FetchSt) (τ : ℚ)
    (hcan : st.breaker.can_attempt (ctx.clock st.tick) = false)
    (ht0 : ctx.t0 = some τ) :
    fetch_with_policy ctx host st = .ok { st with
      error_count := st.error_count + 1,
      tick := st.tick + 3,
      timeline := st.timeline ++
        [(ctx.clock (st.tick + 2) - τ, ctx.clock (st.tick + 1) - τ, host, none)] } := by
  unfold fetch_with_policy FetchSt.sampleClock
  simp only [hcan, ht0, Bool.not_false, if_pos]

/-- Witness for claim C7: with the breaker open until time `100` and the
clock at `0`, the call produces exactly one error and one status-less
segment and leaves everything else as it was. -/
theorem claim_breaker_gate_witness :
    fetch_with_policy ctx_gate ("h") st_gate = .ok { st_gate with
      error_count := st_gate.error_count + 1,
      tick := st_gate.tick + 3,
      timeline := st_gate.timeline ++
        [(ctx_gate.clock (st_gate.tick + 2) - 0, ctx_gate.clock (st_gate.tick + 1) - 0,
          ("h" : String), none)] } :=
  claim_breaker_gate ctx_gate ("h") st_gate 0 (by decide) rfl

/-- The code's percentile index (Python `int` truncation) agrees with
the claim's `clamp(⌊p·(n−1)⌋, 0, n−1)` for nonnegative `p`. -/
theorem pct_index_eq_spec (p : ℚ) (n : Nat) (hp : 0 ≤ p) :
    pct_index p n = spec_pct_index p n := by
  unfold pct_index spec_pct_index pyInt
  rcases Nat.eq_zero_or_pos n with hn | hn
  · subst hn
    norm_num
  · have h1 : (0:ℚ) ≤ (((n : Int) - 1 : Int) : ℚ) := by
      have h2 : (0:Int) ≤ (n:Int) - 1 := by omega
      exact_mod_cast h2
    rw [if_pos (mul_nonneg hp h1)]

/-- The head of the sorted copy of a nonempty list is a least element of
the list. -/
theorem mergeSort_getD_zero_min (l : List ℚ) (hl : l ≠ []) :
    ((l.mergeSort fun a b => a ≤ b).getD 0 0 ∈ l)
  ∧ ∀ x ∈ l, (l.mergeSort fun a b => a ≤ b).getD 0 0 ≤ x := by
  have hperm := List.mergeSort_perm l (fun a b => a ≤ b)
  have hsort : List.Sorted (· ≤ ·) (l.mergeSort fun a b => a ≤ b) :=
    List.sorted_mergeSort' l
  rcases heq : l.mergeSort fun a b => a ≤ b with _ | ⟨a, t⟩
  · exfalso
    have : l.length = 0 := by
      rw [← hperm.length_eq, heq]
      rfl
    exact hl (List.length_eq_zero.1 this)
  · rw [heq] at hperm hsort
    constructor
    · exact hperm.mem_iff.1 (List.mem_cons_self a t)
    · intro x hx
      rcases List.mem_cons.1 (hperm.mem_iff.2 hx) with h | h
      · exact le_of_eq h.symm
      · exact List.rel_of_sorted_cons hsort x h

/-- The last element of the sorted copy of a nonempty list is a greatest
element of the list. -/
theorem mergeSort_getD_last_max (l : List ℚ) (hl : l ≠ []) :
    ((l.mergeSort fun a b => a ≤ b).getD (l.length - 1) 0 ∈ l)
  ∧ ∀ x ∈ l, x ≤ (l.mergeSort fun a b => a ≤ b).getD (l.length - 1) 0 := by
  have hperm := List.mergeSort_perm l (fun a b => a ≤ b)
  have hsort : List.Sorted (· ≤ ·) (l.mergeSort fun a b => a ≤ b) :=
    List.sorted_mergeSort' l
  have hlen : (l.mergeSort fun a b => a ≤ b).length = l.length := hperm.length_eq
  have hpos : 0 < l.length := List.length_pos.2 hl
  have hidx : l.length - 1 < (l.mergeSort fun a b => a ≤ b).length := by omega
  rw [List.getD_eq_get _ _ hidx]
  constructor
  · exact hperm.mem_iff.1 (List.get_mem _ _ _)
  · intro x hx
    obtain ⟨i, hi⟩ := List.mem_iff_get.1 (hperm.mem_iff.2 hx)
    have hle : i ≤ (⟨l.length - 1, hidx⟩ : Fin _) := by
      rw [Fin.le_def]
      have := i.isLt
      simp only [hlen] at this ⊢
      omega
    calc x = (l.mergeSort fun a b => a ≤ b).get i := hi.symm
    _ ≤ _ := hsort.rel_get_of_le hle

/-- Claim C6: `compute_stats` returns `total = success_count +
error_count`; with a non-empty latency list (and at least one request)
each percentile `p ∈ {0.50, 0.90, 0.95, 0.99}` is the element at index
`clamp(⌊p·(n−1)⌋, 0, n−1)` of the sorted latency list (nearest-rank,
not interpolated) and `min`/`max` are a least and a greatest latency;
with an empty latency list the numeric fields are all `None`; the error
rate is `0` when the total is `0` and `error_count / total` otherwise.
(When no request was counted at all the code returns the all-`None`
record regardless of the latency list, so the percentile clause is
stated for runs with at least one request.) -/
theorem claim_compute_stats (lat : List ℚ) (sc ec : Nat) (stc : List (Nat × Nat)) :
    ((compute_stats lat sc ec stc).total = sc + ec)
  ∧ (sc + ec = 0 → (compute_stats lat sc ec stc).error_rate = 0)
  ∧ (sc + ec ≠ 0 →
      (compute_stats lat sc ec stc).error_rate = (ec : ℚ) / ((sc + ec : Nat) : ℚ))
  ∧ (lat = [] →
      (compute_stats lat sc ec stc).mean = none
      ∧ (compute_stats lat sc ec stc).p50 = none
      ∧ (compute_stats lat sc ec stc).p90 = none
      ∧ (compute_stats lat sc ec stc).p95 = none
      ∧ (compute_stats lat sc ec stc).p99 = none
      ∧ (compute_stats lat sc ec stc).min = none
      ∧ (compute_stats lat sc ec stc).max = none)
  ∧ (lat ≠ [] → sc + ec ≠ 0 →
      ((compute_stats lat sc ec stc).p50 =
        some ((lat.mergeSort fun a b => a ≤ b).getD (spec_pct_index 0.5 lat.length) 0)
      ∧ (compute_stats lat sc ec stc).p90 =
        some ((lat.mergeSort fun a b => a ≤ b).getD (spec_pct_index 0.9 lat.length) 0)
      ∧ (compute_stats lat sc ec stc).p95 =
        some ((lat.mergeSort fun a b => a ≤ b).getD (spec_pct_index 0.95 lat.length) 0)
      ∧ (compute_stats lat sc ec stc).p99 =
        some ((lat.mergeSort fun a b => a ≤ b).getD (spec_pct_index 0.99 lat.length) 0)
      ∧ (∃ m, (compute_stats lat sc ec stc).min = some m ∧ m ∈ lat ∧ ∀ x ∈ lat, m ≤ x)
      ∧ (∃ M, (compute_stats lat sc ec stc).max = some M ∧ M ∈ lat ∧
          ∀ x ∈ lat, x ≤ M))) := by
  refine ⟨?_, ?_, ?_, ?_, ?_⟩
  · by_cases h1 : sc + ec = 0 <;> by_cases h2 : lat.length = 0 <;>
      simp [compute_stats, h1, h2]
  · intro h1
    simp [compute_stats, h1]
  · intro h1
    by_cases h2 : lat.length = 0 <;> simp [compute_stats, h1, h2]
  · intro h
    subst h
    by_cases h1 : sc + ec = 0 <;> simp [compute_stats, h1]
  · intro hlat htot
    have hn0 : lat.length ≠ 0 := fun h => hlat (List.length_eq_zero.1 h)
    have hmin := mergeSort_getD_zero_min lat hlat
    have hmax := mergeSort_getD_last_max lat hlat
    refine ⟨?_, ?_, ?_, ?_, ?_, ?_⟩ <;>
      simp only [compute_stats, if_neg htot, if_neg hn0]
    · rw [pct_index_eq_spec 0.5 lat.length (by norm_num)]
    · rw [pct_index_eq_spec 0.9 lat.length (by norm_num)]
    · rw [pct_index_eq_spec 0.95 lat.length (by norm_num)]
    · rw [pct_index_eq_spec 0.99 lat.length (by norm_num)]
    · exact ⟨_, rfl, hmin.1, hmin.2⟩
    · exact ⟨_, rfl, hmax.1, hmax.2⟩

/-- Witness for claim C6 at `latencies = [3, 1, 2]`, two successes and
one error: total `3`, all four percentiles hit index `1` of `[1, 2, 3]`,
the least and greatest latencies are `1` and `3`, and the error rate is
`1/3`; and at the empty run every numeric field is `None`. -/
theorem claim_compute_stats_witness :
    ((compute_stats [3, 1, 2] 2 1 [((200 : Nat), (3 : Nat))]).total = 2 + 1)
  ∧ ((compute_stats [3, 1, 2] 2 1 [((200 : Nat), (3 : Nat))]).p90 =
      some (([(3 : ℚ), 1, 2].mergeSort fun a b => a ≤ b).getD
        (spec_pct_index 0.9 [(3 : ℚ), 1, 2].length) 0))
  ∧ (∃ m, (compute_stats [3, 1, 2] 2 1 [((200 : Nat), (3 : Nat))]).min = some m ∧
      m ∈ [(3 : ℚ), 1, 2] ∧ ∀ x ∈ [(3 : ℚ), 1, 2], m ≤ x)
  ∧ ((compute_stats [] 0 0 []).error_rate = 0)
  ∧ ((compute_stats [] 0 0 []).p50 = none) :=
  ⟨(claim_compute_stats [3, 1, 2] 2 1 [((200 : Nat), (3 : Nat))]).1,
   ((claim_compute_stats [3, 1, 2] 2 1 [((200 : Nat), (3 : Nat))]).2.2.2.2
      (by decide) (by decide)).2.1,
   ((claim_compute_stats [3, 1, 2] 2 1 [((200 : Nat), (3 : Nat))]).2.2.2.2
      (by decide) (by decide)).2.2.2.2.1,
   (claim_compute_stats [] 0 0 []).2.1 rfl,
   ((claim_compute_stats [] 0 0 []).2.2.2.1 rfl).2.1⟩
